import Mathlib

/-!
# Verification of the `timeline_ai` pipeline

The repository is a small Python package: given a PDF document it extracts
per-page text, asks an LLM completion endpoint for dated historical events,
parses the response, and renders an interactive HTML timeline whose events
link back to the source PDF page.

The package's Python module itself is not part of the checked-in sources
here (only `README.md` and the example notebook are); the pipeline below is
therefore modelled from the specification, stage by stage, and the claims
are settled against that model.
-/

/-- Modelled from the spec: `PageText` = one page of extracted text,
`{page_number: integer ≥ 1, text: string}` (the Python source producing it
is not in the repository snapshot). -/
structure PageText where
  page_number : Nat
  text : String
deriving Repr, DecidableEq

/-- Modelled from the spec: an `Event` parsed from the LLM response,
`{date, label, description, source_page}`; the date is taken as the year
integer, which is what the renderer filters on (the Python source is not in
the repository snapshot). -/
structure Event where
  year : Int
  label : String
  description : String
  source_page : Nat
deriving Repr, DecidableEq

/-- Modelled from the spec: a successfully opened PDF container is just its
ordered sequence of page contents (the PDF library is an external black
box: file path → per-page text). -/
structure PdfDocument where
  pages : List String
deriving Repr, DecidableEq

/-- Modelled from the spec: the text extractor walks the document page by
page, numbering pages from 1. -/
def extractFrom : Nat → List String → List PageText
  | _, [] => []
  | n, t :: ts => ⟨n, t⟩ :: extractFrom (n + 1) ts

/-- Modelled from the spec: text extractor on an opened PDF — an ordered
sequence of `PageText` for every page, in page order. -/
def extract_text (doc : PdfDocument) : List PageText :=
  extractFrom 1 doc.pages

/-- Modelled from the spec: a request to the external completion API: a
model identifier and a prompt string. -/
structure LlmRequest where
  model : String
  prompt : String
deriving Repr, DecidableEq

/-- The model name is a fixed constant of the program (README: "currently
OpenAI's gpt-3.5-turbo"). -/
def llmModel : String := "gpt-3.5-turbo"

/-- The name of the process environment variable holding the API
credential (set in `examples/examples.ipynb`). -/
def apiKeyEnvVar : String := "OPENAI_API_KEY"

/-- Modelled from the spec: the ambient world of one invocation — the
readable PDFs, writability of output paths, the process environment
variables, and the external LLM endpoint (credential and request to
completion; `none` is a network/auth/quota failure). -/
structure Env where
  readPdf : String → Option PdfDocument
  writable : String → Bool
  envVars : String → Option String
  llm : String → LlmRequest → Option String

/-- The arguments of the single public entry point `build_timeline`
(README usage section and spec §6); the two optional parameters carry
their documented defaults. -/
structure BuildTimelineArgs where
  pdf_file : String
  output_file : String
  timeline_title : String
  start_year : Int
  end_year : Int
  useful_info : Option String := none
  suppress_bracketted_dates : Bool := false
deriving Repr, DecidableEq

/-- Modelled from the spec: the event extractor builds a single prompt from
the title, the optional useful info, the bracketed-dates flag and the
concatenated page texts with explicit page attribution. -/
def buildPrompt (pages : List PageText) (title : String)
    (info : Option String) (suppress : Bool) : String :=
  "Extract dated events for a timeline titled '" ++ title ++
    "'. Return one event per line as year|label|description|page." ++
    (match info with
     | none => ""
     | some s => " Useful information: " ++ s) ++
    (if suppress then " Suppress bracketed alternate dates." else "") ++
    String.join (pages.map fun p =>
      " [page " ++ toString p.page_number ++ "] " ++ p.text)

/-- Split a character list at every occurrence of the delimiter `c`. -/
def splitOnChar (c : Char) : List Char → List (List Char)
  | [] => [[]]
  | a :: rest =>
    match splitOnChar c rest, decide (a = c) with
    | r, true => [] :: r
    | [], false => [[a]]
    | g :: gs, false => (a :: g) :: gs

/-- Read an unsigned decimal numeral, `none` on any non-digit. -/
def parseNatAux : List Char → Nat → Option Nat
  | [], acc => some acc
  | c :: cs, acc =>
    if c.isDigit then parseNatAux cs (acc * 10 + (c.toNat - 48)) else none

/-- Read a nonempty unsigned decimal numeral. -/
def parseNatChars : List Char → Option Nat
  | [] => none
  | cs => parseNatAux cs 0

/-- Read an optionally negated decimal numeral (years may be BC). -/
def parseIntChars : List Char → Option Int
  | '-' :: rest => (parseNatChars rest).map (fun n => -(n : Int))
  | cs => (parseNatChars cs).map (fun n => (n : Int))

/-- Modelled from the spec: parse one delimiter-separated line
(`year|label|description|page`) of the LLM response into an `Event`; a
line that does not match the fixed expected structure yields `none`. -/
def parseLineChars (line : List Char) : Option Event :=
  match splitOnChar '|' line with
  | [y, l, d, p] =>
    match parseIntChars y, parseNatChars p with
    | some yi, some pi => some ⟨yi, String.mk l, String.mk d, pi⟩
    | _, _ => none
  | _ => none

/-- Modelled from the spec: parse the free-form LLM response line by line,
skipping malformed lines (the per-line-skip choice of §4.2/§9). -/
def parseResponse (resp : String) : List Event :=
  (splitOnChar '\n' resp.data).filterMap parseLineChars

/-- Chronological order on events: comparison of the year. -/
def chronLE (a b : Event) : Prop := a.year ≤ b.year

instance : DecidableRel chronLE := fun a b => Int.decLe a.year b.year

instance : IsTotal Event chronLE := ⟨fun a b => Int.le_total a.year b.year⟩

instance : IsTrans Event chronLE := ⟨fun _ _ _ h h' => Int.le_trans h h'⟩

/-- Modelled from the spec: the renderer's filter to the inclusive caller
range `[s, e]`. -/
def filterRange (events : List Event) (s e : Int) : List Event :=
  events.filter fun ev => decide (s ≤ ev.year) && decide (ev.year ≤ e)

/-- Modelled from the spec: the renderer filters events to the inclusive
year range and orders the survivors chronologically. -/
def renderEvents (events : List Event) (s e : Int) : List Event :=
  List.insertionSort chronLE (filterRange events s e)

/-- Modelled from the spec: the clickable per-event link back to the
originating PDF page, a page-level URL fragment on the PDF path. -/
def eventLink (pdf_path : String) (ev : Event) : String :=
  pdf_path ++ "#page=" ++ toString ev.source_page

/-- Modelled from the spec: serialization of one event into the JSON
structure consumed by the visualization library, link included. -/
def serializeEvent (pdf_path : String) (ev : Event) : String :=
  "\x7b\"year\": " ++ toString ev.year ++ ", \"label\": \"" ++ ev.label ++
    "\", \"description\": \"" ++ ev.description ++ "\", \"link\": \"" ++
    eventLink pdf_path ev ++ "\"\x7d"

/-- Modelled from the spec: the JSON timeline payload — title plus the
filtered, chronologically ordered, serialized events. -/
def renderJson (title pdf_path : String) (events : List Event)
    (s e : Int) : String :=
  "\x7b\"title\": \"" ++ title ++ "\", \"events\": [" ++
    String.intercalate ", " ((renderEvents events s e).map
      (serializeEvent pdf_path)) ++ "]\x7d"

/-- Modelled from the spec: the self-contained HTML file embedding the
generated JSON timeline data. -/
def renderHtml (title pdf_path : String) (events : List Event)
    (s e : Int) : String :=
  "<html><body><script>var timeline = " ++
    renderJson title pdf_path events s e ++ ";</script></body></html>"

/-- The JSON payload of the render stage, as a function of the entry-point
arguments and the event list. -/
def renderPayload (args : BuildTimelineArgs) (events : List Event) : String :=
  renderJson args.timeline_title args.pdf_file events args.start_year
    args.end_year

/-- The three terminal error kinds of the pipeline (spec §7). -/
inductive PipelineError
  | InputError : String → PipelineError
  | ExternalServiceError : String → PipelineError
  | OutputError : String → PipelineError
deriving Repr, DecidableEq

/-- Observable outcome of one invocation: the result, the files created
(path and content), and the requests issued to the external API. -/
structure RunResult where
  result : Except PipelineError Unit
  written : List (String × String)
  apiRequests : List LlmRequest
deriving Repr

/-- Modelled from the spec: the whole pipeline of the single entry point —
load PDF → extract text → call LLM (credential from the environment) →
parse response → render → write the HTML file.  Every failure is terminal,
nothing is written on failure, and the API is called at most once. -/
def build_timeline (env : Env) (args : BuildTimelineArgs) : RunResult :=
  match env.readPdf args.pdf_file with
  | none => ⟨.error (.InputError "cannot read PDF file"), [], []⟩
  | some doc =>
    match env.envVars apiKeyEnvVar with
    | none => ⟨.error (.ExternalServiceError "missing API credential"), [], []⟩
    | some key =>
      match env.llm key ⟨llmModel, buildPrompt (extract_text doc)
          args.timeline_title args.useful_info
          args.suppress_bracketted_dates⟩ with
      | none => ⟨.error (.ExternalServiceError "API call failed"), [],
          [⟨llmModel, buildPrompt (extract_text doc) args.timeline_title
            args.useful_info args.suppress_bracketted_dates⟩]⟩
      | some resp =>
        if env.writable args.output_file then
          ⟨.ok (), [(args.output_file, renderHtml args.timeline_title
              args.pdf_file (parseResponse resp) args.start_year
              args.end_year)],
            [⟨llmModel, buildPrompt (extract_text doc) args.timeline_title
              args.useful_info args.suppress_bracketted_dates⟩]⟩
        else
          ⟨.error (.OutputError "output path not writable"), [],
            [⟨llmModel, buildPrompt (extract_text doc) args.timeline_title
              args.useful_info args.suppress_bracketted_dates⟩]⟩

/-- The events that reach the rendered output of one invocation (empty when
the pipeline fails before the render stage). -/
def pipelineEvents (env : Env) (args : BuildTimelineArgs) : List Event :=
  match env.readPdf args.pdf_file with
  | none => []
  | some doc =>
    match env.envVars apiKeyEnvVar with
    | none => []
    | some key =>
      match env.llm key ⟨llmModel, buildPrompt (extract_text doc)
          args.timeline_title args.useful_info
          args.suppress_bracketted_dates⟩ with
      | none => []
      | some resp => renderEvents (parseResponse resp) args.start_year
          args.end_year

/-- The per-event links embedded in the rendered output of one
invocation. -/
def emittedLinks (env : Env) (args : BuildTimelineArgs) : List String :=
  (pipelineEvents env args).map (eventLink args.pdf_file)

/-- The events parsed out of the LLM response of one invocation, before
the renderer's filtering and ordering (empty when an earlier stage
fails). -/
def parsedEvents (env : Env) (args : BuildTimelineArgs) : List Event :=
  match env.readPdf args.pdf_file with
  | none => []
  | some doc =>
    match env.envVars apiKeyEnvVar with
    | none => []
    | some key =>
      match env.llm key ⟨llmModel, buildPrompt (extract_text doc)
          args.timeline_title args.useful_info
          args.suppress_bracketted_dates⟩ with
      | none => []
      | some resp => parseResponse resp

/-- The text extractor as the fallible call of §4.1: read the PDF at a
path, then extract every page; `none` is the read error. -/
def readAndExtract (env : Env) (path : String) : Option (List PageText) :=
  (env.readPdf path).map extract_text

/-- The property claimed of emitted links: every event reaching the
rendered output references a page number `n` with `1 ≤ n ≤ N` where `N` is
the page count of the source PDF. -/
def linksValid (env : Env) (args : BuildTimelineArgs) : Prop :=
  ∀ doc, env.readPdf args.pdf_file = some doc →
    ∀ ev ∈ pipelineEvents env args,
      1 ≤ ev.source_page ∧ ev.source_page ≤ doc.pages.length

/-! ### Concrete fixtures used by scenario conjuncts and witnesses -/

/-- Scenario event dated 1795 (outside [1800, 1900]). -/
def ev1795 : Event := ⟨1795, "a", "da", 1⟩

/-- Scenario event dated 1850 (inside [1800, 1900]). -/
def ev1850 : Event := ⟨1850, "b", "db", 2⟩

/-- Scenario event dated 1999 (outside [1800, 1900]). -/
def ev1999 : Event := ⟨1999, "c", "dc", 3⟩

/-- A two-page PDF document. -/
def docAB : PdfDocument := ⟨["alpha", "beta"]⟩

/-- Arguments of the scenario invocation. -/
def argsA : BuildTimelineArgs := ⟨"doc.pdf", "out.html", "Test", 1800, 1900, none, false⟩

/-- Arguments equal to `argsA` on title, years and PDF path, differing on
output path and the optional parameters. -/
def argsB : BuildTimelineArgs :=
  ⟨"doc.pdf", "other.html", "Test", 1800, 1900, some "x", true⟩

/-- A world where everything succeeds: the PDF is readable, the credential
is set, the LLM answers one well-formed line, the output is writable. -/
def envOk : Env :=
  ⟨fun _ => some docAB, fun _ => true, fun _ => some "k",
   fun _ _ => some "1850|b|db|2"⟩

/-- A world identical to `envOk` except that the environment variables
differ away from `OPENAI_API_KEY`. -/
def envOk2 : Env :=
  ⟨fun _ => some docAB, fun _ => true,
   fun v => if v = "OPENAI_API_KEY" then some "k" else some "other",
   fun _ _ => some "1850|b|db|2"⟩

/-- A world whose LLM hallucinates the page attribution: it answers an
event placed on page 999 of a two-page document. -/
def envBadPage : Env :=
  ⟨fun _ => some docAB, fun _ => true, fun _ => some "k",
   fun _ _ => some "1850|b|db|999"⟩

/-- A world with no readable PDF at any path. -/
def envNoPdf : Env :=
  ⟨fun _ => none, fun _ => true, fun _ => some "k", fun _ _ => some ""⟩

/-- A world like `envOk` whose output paths are not writable. -/
def envNoWrite : Env :=
  ⟨fun _ => some docAB, fun _ => false, fun _ => some "k",
   fun _ _ => some "1850|b|db|2"⟩

/-! ### Helper lemmas -/

theorem mem_filterRange {events : List Event} {s e : Int} {ev : Event} :
    ev ∈ filterRange events s e ↔ ev ∈ events ∧ s ≤ ev.year ∧ ev.year ≤ e := by
  simp [filterRange, List.mem_filter, and_assoc]

theorem renderEvents_perm (events : List Event) (s e : Int) :
    (renderEvents events s e).Perm (filterRange events s e) :=
  List.perm_insertionSort chronLE _

theorem mem_renderEvents {events : List Event} {s e : Int} {ev : Event} :
    ev ∈ renderEvents events s e ↔ ev ∈ events ∧ s ≤ ev.year ∧ ev.year ≤ e := by
  rw [(renderEvents_perm events s e).mem_iff, mem_filterRange]

theorem extractFrom_map_page : ∀ (ts : List String) (n : Nat),
    (extractFrom n ts).map PageText.page_number = List.range' n ts.length
  | [], _ => rfl
  | t :: ts, n => by
    simp [extractFrom, List.range'_succ, extractFrom_map_page ts (n + 1)]

theorem extractFrom_length : ∀ (ts : List String) (n : Nat),
    (extractFrom n ts).length = ts.length
  | [], _ => rfl
  | t :: ts, n => by simp [extractFrom, extractFrom_length ts (n + 1)]

theorem pipelineEvents_eq_render (env : Env) (args : BuildTimelineArgs) :
    pipelineEvents env args =
      renderEvents (parsedEvents env args) args.start_year args.end_year := by
  cases hpdf : env.readPdf args.pdf_file with
  | none =>
    simp [pipelineEvents, parsedEvents, hpdf, renderEvents, filterRange]
  | some doc =>
    cases hk : env.envVars apiKeyEnvVar with
    | none =>
      simp [pipelineEvents, parsedEvents, hpdf, hk, renderEvents, filterRange]
    | some key =>
      cases hl : env.llm key ⟨llmModel, buildPrompt (extract_text doc)
          args.timeline_title args.useful_info
          args.suppress_bracketted_dates⟩ with
      | none =>
        simp [pipelineEvents, parsedEvents, hpdf, hk, hl, renderEvents,
          filterRange]
      | some resp =>
        simp [pipelineEvents, parsedEvents, hpdf, hk, hl]

theorem pipelineError_cases (err : PipelineError) :
    (∃ m, err = .InputError m) ∨ (∃ m, err = .ExternalServiceError m) ∨
      (∃ m, err = .OutputError m) := by
  cases err with
  | InputError m => exact Or.inl ⟨m, rfl⟩
  | ExternalServiceError m => exact Or.inr (Or.inl ⟨m, rfl⟩)
  | OutputError m => exact Or.inr (Or.inr ⟨m, rfl⟩)

/-! ### Claims -/

/-- C1: for every event list and integer pair `(start_year, end_year)` the
renderer's output contains no event outside the inclusive range, contains
every in-range input event exactly once, and is chronologically ordered;
in particular for start 1800, end 1900 and events dated 1795, 1850, 1999
the output holds only the 1850 event. -/
theorem renderer_range_unique_ordered (events : List Event) (s e : Int)
    (hnd : events.Nodup) :
    (∀ ev ∈ renderEvents events s e, s ≤ ev.year ∧ ev.year ≤ e) ∧
    (∀ ev ∈ events, s ≤ ev.year → ev.year ≤ e →
      (renderEvents events s e).count ev = 1) ∧
    List.Sorted chronLE (renderEvents events s e) ∧
    renderEvents [ev1795, ev1850, ev1999] 1800 1900 = [ev1850] := by
  refine ⟨fun ev hev => (mem_renderEvents.mp hev).2, fun ev hev hs he => ?_,
    List.sorted_insertionSort chronLE _, by decide⟩
  rw [(renderEvents_perm events s e).count_eq ev]
  exact List.count_eq_one_of_mem (hnd.filter _)
    (mem_filterRange.mpr ⟨hev, hs, he⟩)

/-- Witness for C1: the scenario instance, through the theorem at the
concrete event list with its `Nodup` hypothesis discharged. -/
theorem renderer_range_unique_ordered_witness :
    renderEvents [ev1795, ev1850, ev1999] 1800 1900 = [ev1850] :=
  (renderer_range_unique_ordered [ev1795, ev1850, ev1999] 1800 1900
    (by decide)).2.2.2

/-- C2: a successfully read PDF with `N` pages yields exactly `N`
`PageText` entries, with page numbers `1, …, N` in strictly increasing
order, and a failed read yields no partial result. -/
theorem extractor_exact_pages (env : Env) (path : String)
    (doc : PdfDocument) :
    (env.readPdf path = some doc →
      readAndExtract env path = some (extract_text doc) ∧
      (extract_text doc).length = doc.pages.length ∧
      (extract_text doc).map PageText.page_number =
        List.range' 1 doc.pages.length ∧
      (extract_text doc).Pairwise
        (fun a b => a.page_number < b.page_number)) ∧
    (env.readPdf path = none → readAndExtract env path = none) := by
  constructor
  · intro h
    refine ⟨by simp [readAndExtract, h], extractFrom_length doc.pages 1,
      extractFrom_map_page doc.pages 1, ?_⟩
    have hp : List.Pairwise (fun a b => a < b)
        ((extract_text doc).map PageText.page_number) := by
      rw [extract_text, extractFrom_map_page]
      exact List.pairwise_lt_range' 1 doc.pages.length
    exact List.pairwise_map.mp hp
  · intro h
    simp [readAndExtract, h]

/-- Witness for C2: the two-page document read through `envOk`. -/
theorem extractor_exact_pages_witness :
    readAndExtract envOk "doc.pdf" = some (extract_text docAB) ∧
    (extract_text docAB).length = docAB.pages.length ∧
    (extract_text docAB).map PageText.page_number =
      List.range' 1 docAB.pages.length ∧
    (extract_text docAB).Pairwise
      (fun a b => a.page_number < b.page_number) :=
  (extractor_exact_pages envOk "doc.pdf" docAB).1 rfl

/-- C3: the render stage is deterministic — its JSON payload is a function
of the event list and of the parameters it consumes (title, years, PDF
path) alone, so two runs on the same inputs produce byte-identical
payloads even if everything else (output path, optional parameters)
differs. -/
theorem render_stage_deterministic (events : List Event)
    (a1 a2 : BuildTimelineArgs)
    (ht : a1.timeline_title = a2.timeline_title)
    (hp : a1.pdf_file = a2.pdf_file)
    (hs : a1.start_year = a2.start_year)
    (he : a1.end_year = a2.end_year) :
    renderPayload a1 events = renderPayload a2 events := by
  simp [renderPayload, ht, hp, hs, he]

/-- Witness for C3: two runs whose parameter sets agree on title, years
and PDF path but differ elsewhere give the same payload. -/
theorem render_stage_deterministic_witness :
    renderPayload argsA [ev1795, ev1850, ev1999] =
      renderPayload argsB [ev1795, ev1850, ev1999] :=
  render_stage_deterministic [ev1795, ev1850, ev1999] argsA argsB
    rfl rfl rfl rfl

/-- C5: the public entry point takes exactly the seven documented
parameters — an argument record is nothing but its seven fields — and the
optional parameters default to `none` and `false`. -/
theorem entry_point_signature (p o t : String) (s e : Int) :
    (∀ a : BuildTimelineArgs,
      a = ⟨a.pdf_file, a.output_file, a.timeline_title, a.start_year,
           a.end_year, a.useful_info, a.suppress_bracketted_dates⟩) ∧
    ({ pdf_file := p, output_file := o, timeline_title := t,
       start_year := s, end_year := e : BuildTimelineArgs }).useful_info =
      none ∧
    ({ pdf_file := p, output_file := o, timeline_title := t,
       start_year := s, end_year := e :
       BuildTimelineArgs }).suppress_bracketted_dates = false :=
  ⟨fun _ => rfl, rfl, rfl⟩

/-- C6: when the PDF path cannot be read, the pipeline fails with an
`InputError` and writes nothing. -/
theorem missing_input_no_output (env : Env) (args : BuildTimelineArgs)
    (h : env.readPdf args.pdf_file = none) :
    (build_timeline env args).result =
      .error (.InputError "cannot read PDF file") ∧
    (build_timeline env args).written = [] := by
  simp [build_timeline, h]

/-- Witness for C6: a world with no readable PDF. -/
theorem missing_input_no_output_witness :
    (build_timeline envNoPdf argsA).result =
      .error (.InputError "cannot read PDF file") ∧
    (build_timeline envNoPdf argsA).written = [] :=
  missing_input_no_output envNoPdf argsA rfl

/-- C7: every failure of the pipeline is one of the three error kinds
(`InputError`, `ExternalServiceError`, `OutputError`), a failing call
writes no output at all, and the external API is attempted at most once
per call. -/
theorem errors_terminal_single_attempt (env : Env)
    (args : BuildTimelineArgs) :
    (∀ err, (build_timeline env args).result = .error err →
      ((∃ m, err = .InputError m) ∨ (∃ m, err = .ExternalServiceError m) ∨
        (∃ m, err = .OutputError m)) ∧
      (build_timeline env args).written = []) ∧
    (build_timeline env args).apiRequests.length ≤ 1 := by
  refine ⟨fun err herr => ⟨pipelineError_cases err, ?_⟩, ?_⟩
  · cases hpdf : env.readPdf args.pdf_file with
    | none => simp [build_timeline, hpdf]
    | some doc =>
      cases hk : env.envVars apiKeyEnvVar with
      | none => simp [build_timeline, hpdf, hk]
      | some key =>
        cases hl : env.llm key ⟨llmModel, buildPrompt (extract_text doc)
            args.timeline_title args.useful_info
            args.suppress_bracketted_dates⟩ with
        | none => simp [build_timeline, hpdf, hk, hl]
        | some resp =>
          cases hw : env.writable args.output_file with
          | false => simp [build_timeline, hpdf, hk, hl, hw]
          | true =>
            simp [build_timeline, hpdf, hk, hl, hw] at herr
  · cases hpdf : env.readPdf args.pdf_file with
    | none => simp [build_timeline, hpdf]
    | some doc =>
      cases hk : env.envVars apiKeyEnvVar with
      | none => simp [build_timeline, hpdf, hk]
      | some key =>
        cases hl : env.llm key ⟨llmModel, buildPrompt (extract_text doc)
            args.timeline_title args.useful_info
            args.suppress_bracketted_dates⟩ with
        | none => simp [build_timeline, hpdf, hk, hl]
        | some resp =>
          cases hw : env.writable args.output_file with
          | false => simp [build_timeline, hpdf, hk, hl, hw]
          | true => simp [build_timeline, hpdf, hk, hl, hw]

/-- Witness for C7: the failing invocation of `envNoPdf` — its error is
one of the three kinds, nothing is written, one API attempt at most. -/
theorem errors_terminal_single_attempt_witness :
    ((∃ m, PipelineError.InputError "cannot read PDF file" =
        .InputError m) ∨
     (∃ m, PipelineError.InputError "cannot read PDF file" =
        .ExternalServiceError m) ∨
     (∃ m, PipelineError.InputError "cannot read PDF file" =
        .OutputError m)) ∧
    (build_timeline envNoPdf argsA).written = [] ∧
    (build_timeline envNoPdf argsA).apiRequests.length ≤ 1 :=
  ⟨((errors_terminal_single_attempt envNoPdf argsA).1
      (.InputError "cannot read PDF file") rfl).1,
   ((errors_terminal_single_attempt envNoPdf argsA).1
      (.InputError "cannot read PDF file") rfl).2,
   (errors_terminal_single_attempt envNoPdf argsA).2⟩

/-- C8: a successful run writes exactly one self-contained HTML file at
the output path; every per-event link embedded in the output has the form
`<pdf_path>#page=<n>` for a rendered event's source page; and when the
output path is not writable (all earlier stages succeeding) the run fails
with the write error and writes nothing. -/
theorem single_html_output_page_links (env : Env)
    (args : BuildTimelineArgs) :
    ((build_timeline env args).result = .ok () →
      (build_timeline env args).written =
        [(args.output_file, renderHtml args.timeline_title args.pdf_file
          (parsedEvents env args) args.start_year args.end_year)]) ∧
    (∀ l ∈ emittedLinks env args, ∃ ev ∈ pipelineEvents env args,
      l = args.pdf_file ++ "#page=" ++ toString ev.source_page) ∧
    (∀ doc key resp, env.readPdf args.pdf_file = some doc →
      env.envVars apiKeyEnvVar = some key →
      env.llm key ⟨llmModel, buildPrompt (extract_text doc)
        args.timeline_title args.useful_info
        args.suppress_bracketted_dates⟩ = some resp →
      env.writable args.output_file = false →
      (build_timeline env args).result =
        .error (.OutputError "output path not writable") ∧
      (build_timeline env args).written = []) := by
  refine ⟨?_, ?_, ?_⟩
  · intro hok
    cases hpdf : env.readPdf args.pdf_file with
    | none => simp [build_timeline, hpdf] at hok
    | some doc =>
      cases hk : env.envVars apiKeyEnvVar with
      | none => simp [build_timeline, hpdf, hk] at hok
      | some key =>
        cases hl : env.llm key ⟨llmModel, buildPrompt (extract_text doc)
            args.timeline_title args.useful_info
            args.suppress_bracketted_dates⟩ with
        | none => simp [build_timeline, hpdf, hk, hl] at hok
        | some resp =>
          cases hw : env.writable args.output_file with
          | false => simp [build_timeline, hpdf, hk, hl, hw] at hok
          | true =>
            simp [build_timeline, parsedEvents, hpdf, hk, hl, hw]
  · intro l hl
    simp only [emittedLinks, List.mem_map] at hl
    obtain ⟨ev, hev, rfl⟩ := hl
    exact ⟨ev, hev, rfl⟩
  · intro doc key resp hpdf hk hl hw
    simp [build_timeline, hpdf, hk, hl, hw]

/-- Witness for C8: the successful world writes its single HTML file, and
the unwritable world gives the write error. -/
theorem single_html_output_page_links_witness :
    (build_timeline envOk argsA).written =
      [(argsA.output_file, renderHtml argsA.timeline_title argsA.pdf_file
        (parsedEvents envOk argsA) argsA.start_year argsA.end_year)] ∧
    (build_timeline envNoWrite argsA).result =
      .error (.OutputError "output path not writable") :=
  ⟨(single_html_output_page_links envOk argsA).1 rfl,
   ((single_html_output_page_links envNoWrite argsA).2.2 docAB "k"
      "1850|b|db|2" rfl rfl rfl rfl).1⟩

/-- C9: the entry point takes no credential parameter; its behaviour
depends on the process environment variables only through the variable
named `OPENAI_API_KEY`. -/
theorem credential_from_environment (env1 env2 : Env)
    (args : BuildTimelineArgs)
    (hr : env1.readPdf = env2.readPdf) (hw : env1.writable = env2.writable)
    (hl : env1.llm = env2.llm)
    (hk : env1.envVars apiKeyEnvVar = env2.envVars apiKeyEnvVar) :
    build_timeline env1 args = build_timeline env2 args ∧
      apiKeyEnvVar = "OPENAI_API_KEY" := by
  refine ⟨?_, rfl⟩
  unfold build_timeline
  rw [hr, hw, hl, hk]

/-- Witness for C9: two worlds that agree on `OPENAI_API_KEY` but differ
on every other environment variable behave identically. -/
theorem credential_from_environment_witness :
    build_timeline envOk argsA = build_timeline envOk2 argsA ∧
      apiKeyEnvVar = "OPENAI_API_KEY" :=
  credential_from_environment envOk envOk2 argsA rfl rfl rfl (by decide)

/-- C10: every request the pipeline issues to the external completion
endpoint names the fixed model constant `gpt-3.5-turbo`, whatever the
input PDF and parameters. -/
theorem model_fixed_constant (env : Env) (args : BuildTimelineArgs) :
    ∀ req ∈ (build_timeline env args).apiRequests,
      req.model = llmModel ∧ llmModel = "gpt-3.5-turbo" := by
  intro req hreq
  refine ⟨?_, rfl⟩
  cases hpdf : env.readPdf args.pdf_file with
  | none => simp [build_timeline, hpdf] at hreq
  | some doc =>
    cases hk : env.envVars apiKeyEnvVar with
    | none => simp [build_timeline, hpdf, hk] at hreq
    | some key =>
      cases hl : env.llm key ⟨llmModel, buildPrompt (extract_text doc)
          args.timeline_title args.useful_info
          args.suppress_bracketted_dates⟩ with
      | none =>
        simp [build_timeline, hpdf, hk, hl] at hreq
        simp [hreq]
      | some resp =>
        cases hw : env.writable args.output_file with
        | false =>
          simp [build_timeline, hpdf, hk, hl, hw] at hreq
          simp [hreq]
        | true =>
          simp [build_timeline, hpdf, hk, hl, hw] at hreq
          simp [hreq]

/-- Witness for C10: the one request of the successful scenario run names
the constant model. -/
theorem model_fixed_constant_witness :
    (⟨llmModel, buildPrompt (extract_text docAB) "Test" none
      false⟩ : LlmRequest).model = llmModel ∧
      llmModel = "gpt-3.5-turbo" :=
  model_fixed_constant envOk argsA
    ⟨llmModel, buildPrompt (extract_text docAB) "Test" none false⟩
    (by decide)

/-- Counterexample to C4 as stated: nothing validates the LLM's page
attribution, so a response placing an event on page 999 of a two-page
document reaches the rendered output, and its link does not resolve to a
valid page of the source PDF. -/
theorem links_out_of_range_counterexample : ¬ linksValid envBadPage argsA := by
  intro h
  have hm : (⟨1850, "b", "db", 999⟩ : Event) ∈
      pipelineEvents envBadPage argsA := by decide
  have hb := h docAB rfl ⟨1850, "b", "db", 999⟩ hm
  exact absurd hb.2 (by decide)

/-- C4 amended: the renderer never invents page references — every event
reaching the rendered output is one of the parsed events — so whenever the
LLM's (best-effort) page attribution is within `1 ≤ n ≤ N`, every emitted
event link references a valid page of the source PDF. -/
theorem links_valid_of_attribution_valid (env : Env)
    (args : BuildTimelineArgs) (doc : PdfDocument)
    (_hdoc : env.readPdf args.pdf_file = some doc)
    (hv : ∀ ev ∈ parsedEvents env args,
      1 ≤ ev.source_page ∧ ev.source_page ≤ doc.pages.length) :
    ∀ ev ∈ pipelineEvents env args,
      1 ≤ ev.source_page ∧ ev.source_page ≤ doc.pages.length := by
  intro ev hev
  rw [pipelineEvents_eq_render] at hev
  exact hv ev (mem_renderEvents.mp hev).1

/-- Witness for the amended C4: in the honest world the one rendered event
sits on page 2 of the two-page document. -/
theorem links_valid_of_attribution_valid_witness :
    1 ≤ (⟨1850, "b", "db", 2⟩ : Event).source_page ∧
      (⟨1850, "b", "db", 2⟩ : Event).source_page ≤ docAB.pages.length :=
  links_valid_of_attribution_valid envOk argsA docAB rfl (by decide)
    ⟨1850, "b", "db", 2⟩ (by decide)
